import Mathlib

/-!
Shallow embedding of the rubric scoring engine of `scorer.py`
(class `IntroductionScorer`) from the vaanimeter repository.

Transcripts are modelled as `List Char`.  Python string operations used by
the engine (`str.lower`, `str.split`, `str.find`, `in`, `str.count`) are
modelled below over `List Char`; real-valued arithmetic (WPM, ratios,
percentages) is modelled over `ℚ`.
-/

unseal Rat.inv Rat.mul Rat.add Rat.sub

/-- Python `str.lower()` (ASCII behaviour, per-character). -/
def pyLower (t : List Char) : List Char := t.map Char.toLower

/-- Worker for `pyWords`: `acc` holds the current (reversed) run of
non-whitespace characters; a run is emitted when a whitespace character
or the end of the string is reached. -/
def splitAux : List Char → List Char → List (List Char)
  | acc, [] => if acc.isEmpty then [] else [acc.reverse]
  | acc, c :: t =>
    if c.isWhitespace then
      (if acc.isEmpty then splitAux [] t else acc.reverse :: splitAux [] t)
    else splitAux (c :: acc) t

/-- Python `str.split()` with no arguments: maximal runs of
non-whitespace characters, whitespace runs discarded. -/
def pyWords (t : List Char) : List (List Char) := splitAux [] t

/-- Index of the first occurrence of `pat` in the list, if any. -/
def findSub (pat : List Char) : List Char → Option Nat
  | [] => if pat.isPrefixOf ([] : List Char) then some 0 else none
  | c :: t =>
    if pat.isPrefixOf (c :: t) then some 0
    else (findSub pat t).map Nat.succ

/-- Python `hay.find(pat)`: index of first occurrence, `-1` if absent. -/
def pyFind (hay pat : List Char) : Int :=
  match findSub pat hay with
  | none => -1
  | some n => (n : Int)

/-- Python `pat in hay` (substring containment). -/
def pyContains (hay pat : List Char) : Bool := (findSub pat hay).isSome

/-- Worker for `countOccs`: `skip` is the number of characters still to
pass over after a match (so the scan resumes right after the matched
block, giving non-overlapping occurrences). -/
def countOccsAux (pat : List Char) : List Char → Nat → Nat
  | [], _ => 0
  | c :: t, 0 =>
    if pat.isPrefixOf (c :: t) then 1 + countOccsAux pat t (pat.length - 1)
    else countOccsAux pat t 0
  | _ :: t, skip + 1 => countOccsAux pat t skip

/-- Python `hay.count(pat)` for non-empty `pat`: number of
non-overlapping occurrences, scanning left to right. -/
def countOccs (pat : List Char) (hay : List Char) : Nat :=
  countOccsAux pat hay 0

/-! ## Data model: the result dictionaries returned by the evaluators -/

structure ContentResult where
  salutation_score : Nat
  keyword_must_have_score : Nat
  keyword_good_to_have_score : Nat
  flow_score : Nat
  total : Nat
deriving DecidableEq, Repr

structure SpeechResult where
  wpm : Int
  score : Nat
deriving DecidableEq, Repr

structure LanguageResult where
  grammar_score : Nat
  vocabulary_richness_score : Nat
  total : Nat
deriving DecidableEq, Repr

structure ClarityResult where
  filler_word_count : Nat
  filler_word_rate_percent : ℚ
  score : Nat
deriving DecidableEq, Repr

structure EngagementResult where
  sentiment_positive_probability : ℚ
  score : Nat
deriving DecidableEq, Repr

structure Report where
  overall_score : Nat
  content_and_structure : ContentResult
  speech_rate : SpeechResult
  language_and_grammar : LanguageResult
  clarity : ClarityResult
  engagement : EngagementResult
deriving DecidableEq, Repr

/-- The engine state: the two injected collaborators.  `grammar_tool` is
`none` when LanguageTool failed to load (Python `None`); `vader_analyzer`
yields the VADER compound polarity of a text. -/
structure IntroductionScorer where
  grammar_tool : Option (List Char → Nat)
  vader_analyzer : List Char → ℚ

/-! ## Static pattern tables (`evaluate_content_structure`) -/

def strong_salutations : List (List Char) :=
  ["i am excited to introduce myself",
   "i\x27m very happy to introduce myself",
   "i am very happy to introduce myself"].map String.data

def good_salutations : List (List Char) :=
  ["good morning", "good afternoon", "good evening",
   "good day", "hello everyone"].map String.data

def basic_salutations : List (List Char) := ["hi", "hello"].map String.data

def name_patterns : List (List Char) :=
  ["name is", "i am", "my name"].map String.data

def age_patterns : List (List Char) :=
  ["years old", "age is", "i am 1", "i am 2", "i am 3", "i am 4",
   "i am 5", "i am 6", "i am 7", "i am 8", "i am 9"].map String.data

def school_patterns : List (List Char) :=
  ["study in", "class", "grade", "school", "student at"].map String.data

def family_patterns : List (List Char) :=
  ["family", "parents", "brother", "sister", "mother", "father",
   "live with"].map String.data

def hobbies_patterns : List (List Char) :=
  ["hobby", "hobbies", "like to", "enjoy", "love to", "playing",
   "reading"].map String.data

/-- The `must_haves` dict, in Python insertion order
(Name, Age, School/Class, Family, Hobbies). -/
def must_haves : List (List (List Char)) :=
  [name_patterns, age_patterns, school_patterns, family_patterns,
   hobbies_patterns]

/-- The `good_to_haves` dict, in Python insertion order
(Family Details, Origin, Ambition, Unique, Strengths). -/
def good_to_haves : List (List (List Char)) :=
  [["father is", "mother is", "sister is", "brother is",
    "parents are"].map String.data,
   ["i am from", "parents are from", "born in", "native"].map String.data,
   ["want to become", "goal", "future", "aim to", "dream"].map String.data,
   ["interesting", "unique", "fact about me", "special"].map String.data,
   ["strength", "good at", "achievement", "proud of"].map String.data]

def closing_patterns : List (List Char) :=
  ["thank you", "thanks", "that\x27s all"].map String.data

/-- The per-category index loop of the flow heuristic: iterate the
category's patterns in list order and return the `find` index of the first
pattern that occurs at all, `-1` if none does (the Python `for`/`break`
loop filling `indices[k]`, also used for `salutation_idx`/`closing_idx`). -/
def firstFoundIdx (hay : List Char) : List (List Char) → Int
  | [] => -1
  | p :: ps =>
    let idx := pyFind hay p
    if idx ≠ -1 then idx else firstFoundIdx hay ps

/-- Modelled from the spec claim wording (not from the code): the flow
index of a category read as the minimum occurrence position over all of
the category's patterns that occur, `-1` if none occurs. -/
def minOccIdx (hay : List Char) (pats : List (List Char)) : Int :=
  match (pats.map (fun p => pyFind hay p)).filter (fun i => i ≠ -1) with
  | [] => -1
  | x :: xs => xs.foldl min x

/-! ## The five evaluators -/

def evaluate_content_structure (text : List Char) : ContentResult :=
  let lower_text := pyLower text
  let salutation_score : Nat :=
    if strong_salutations.any (fun x => pyContains lower_text x) then 5
    else if good_salutations.any (fun x => pyContains lower_text x) then 4
    else if basic_salutations.any (fun x => pyContains lower_text x) then 2
    else 0
  let must_have_score : Nat :=
    min 20 (4 * must_haves.countP
      (fun pats => pats.any (fun p => pyContains lower_text p)))
  let good_to_have_score : Nat :=
    min 10 (2 * good_to_haves.countP
      (fun pats => pats.any (fun p => pyContains lower_text p)))
  let name_idx := firstFoundIdx lower_text name_patterns
  let hobbies_idx := firstFoundIdx lower_text hobbies_patterns
  let salutation_idx :=
    firstFoundIdx lower_text (good_salutations ++ basic_salutations)
  let closing_idx := firstFoundIdx lower_text closing_patterns
  let flow1 : Int :=
    if salutation_idx ≠ -1 ∧ name_idx ≠ -1 ∧ name_idx < salutation_idx
    then 5 - 2 else 5
  let flow2 : Int :=
    if closing_idx ≠ -1 ∧ name_idx ≠ -1 ∧ closing_idx < name_idx
    then flow1 - 3 else flow1
  let flow3 : Int :=
    if hobbies_idx ≠ -1 ∧ name_idx ≠ -1 ∧ hobbies_idx < name_idx
    then flow2 - 1 else flow2
  let flow_score : Nat := (max 0 flow3).toNat
  { salutation_score := salutation_score,
    keyword_must_have_score := must_have_score,
    keyword_good_to_have_score := good_to_have_score,
    flow_score := flow_score,
    total := salutation_score + must_have_score + good_to_have_score +
      flow_score }

/-- Modelled from the spec claim wording (not from the code): the flow
score computed with all three compared indices taken as minimum
occurrence positions (`minOccIdx`) instead of the first-listed-pattern
indices the code uses. -/
def flowScoreSpec (text : List Char) : Nat :=
  let lower_text := pyLower text
  let name_idx := minOccIdx lower_text name_patterns
  let hobbies_idx := minOccIdx lower_text hobbies_patterns
  let salutation_idx :=
    minOccIdx lower_text (good_salutations ++ basic_salutations)
  let closing_idx := minOccIdx lower_text closing_patterns
  let flow1 : Int :=
    if salutation_idx ≠ -1 ∧ name_idx ≠ -1 ∧ name_idx < salutation_idx
    then 5 - 2 else 5
  let flow2 : Int :=
    if closing_idx ≠ -1 ∧ name_idx ≠ -1 ∧ closing_idx < name_idx
    then flow1 - 3 else flow1
  let flow3 : Int :=
    if hobbies_idx ≠ -1 ∧ name_idx ≠ -1 ∧ hobbies_idx < name_idx
    then flow2 - 1 else flow2
  (max 0 flow3).toNat

/-- The WPM value of `evaluate_speech_rate`: fixed 52-second duration. -/
def speechWpm (text : List Char) : ℚ :=
  let word_count := (pyWords text).length
  let duration_min : ℚ := 52 / 60
  if duration_min > 0 then (word_count : ℚ) / duration_min else 0

def evaluate_speech_rate (text : List Char) : SpeechResult :=
  let wpm := speechWpm text
  let score : Nat :=
    if wpm > 161 then 2
    else if 141 ≤ wpm ∧ wpm ≤ 160 then 6
    else if 111 ≤ wpm ∧ wpm ≤ 140 then 10
    else if 81 ≤ wpm ∧ wpm ≤ 110 then 6
    else 2
  { wpm := Rat.floor wpm, score := score }

/-- The effective grammar-error count: Python truthiness guard
`if self.grammar_tool:`, errors default to 0 when the tool is absent. -/
def effErrors (s : IntroductionScorer) (text : List Char) : Nat :=
  match s.grammar_tool with
  | none => 0
  | some check => check text

def errorsPer100 (s : IntroductionScorer) (text : List Char) : ℚ :=
  let word_count := (pyWords text).length
  ((effErrors s text : ℚ) / (word_count : ℚ)) * 100

/-- `g_ratio = 1 - min(errors_per_100 / 10, 1)`. -/
def gRatioVal (s : IntroductionScorer) (text : List Char) : ℚ :=
  1 - min (errorsPer100 s text / 10) 1

/-- The five-band mapping used identically for the grammar ratio and the
type-token ratio (thresholds 0.9/0.7/0.5/0.3, scores 10/8/6/4/2). -/
def ratioBand (r : ℚ) : Nat :=
  if r ≥ 9/10 then 10
  else if 7/10 ≤ r ∧ r < 9/10 then 8
  else if 5/10 ≤ r ∧ r < 7/10 then 6
  else if 3/10 ≤ r ∧ r < 5/10 then 4
  else 2

/-- Type-token ratio over lower-cased whitespace tokens. -/
def ttrVal (text : List Char) : ℚ :=
  let tokens := (pyWords text).map pyLower
  if tokens.length > 0
  then ((tokens.dedup).length : ℚ) / (tokens.length : ℚ) else 0

def evaluate_language_grammar (s : IntroductionScorer) (text : List Char) :
    LanguageResult :=
  let word_count := (pyWords text).length
  if word_count = 0 then
    { grammar_score := 0, vocabulary_richness_score := 0, total := 0 }
  else
    let grammar_score := ratioBand (gRatioVal s text)
    let vocab_score := ratioBand (ttrVal text)
    { grammar_score := grammar_score,
      vocabulary_richness_score := vocab_score,
      total := grammar_score + vocab_score }

def fillers : List (List Char) :=
  ["um", "uh", "like", "you know", "so", "actually",
   "basically", "right", "i mean", "well", "kinda",
   "sort of", "okay", "hmm", "ah"].map String.data

/-- Filler count: exact-token matches for single-word fillers plus
non-overlapping substring occurrences of each multi-word filler. -/
def clarityFillerCount (text : List Char) : Nat :=
  let lower_text := pyLower text
  let words := pyWords lower_text
  let single := words.countP (fun w => fillers.contains w)
  let multi_word_fillers := fillers.filter (fun f => f.contains ' ')
  let multi := (multi_word_fillers.map (fun f => countOccs f lower_text)).sum
  single + multi

/-- `rate_percent = (filler_count / word_count) * 100` (unrounded). -/
def clarityRate (text : List Char) : ℚ :=
  let word_count := (pyWords (pyLower text)).length
  ((clarityFillerCount text : ℚ) / (word_count : ℚ)) * 100

/-- Round-half-to-even to an integer (Python `round` banker rounding). -/
def roundHalfEven (q : ℚ) : ℤ :=
  let f := Rat.floor q
  let r := q - (f : ℚ)
  if r < 1/2 then f
  else if r > 1/2 then f + 1
  else if f % 2 = 0 then f else f + 1

/-- Python `round(x, 2)`. -/
def round2 (q : ℚ) : ℚ := (roundHalfEven (q * 100) : ℚ) / 100

def evaluate_clarity (text : List Char) : ClarityResult :=
  let word_count := (pyWords (pyLower text)).length
  if word_count = 0 then
    { filler_word_count := 0, filler_word_rate_percent := 0, score := 15 }
  else
    let rate_percent := clarityRate text
    let score : Nat :=
      if rate_percent ≤ 3 then 15
      else if 4 ≤ rate_percent ∧ rate_percent ≤ 6 then 12
      else if 7 ≤ rate_percent ∧ rate_percent ≤ 9 then 9
      else if 10 ≤ rate_percent ∧ rate_percent ≤ 12 then 6
      else 3
    { filler_word_count := clarityFillerCount text,
      filler_word_rate_percent := round2 rate_percent,
      score := score }

/-- `p_pos = (compound + 1) / 2`. -/
def pPos (s : IntroductionScorer) (text : List Char) : ℚ :=
  (s.vader_analyzer text + 1) / 2

def evaluate_engagement (s : IntroductionScorer) (text : List Char) :
    EngagementResult :=
  if text.all Char.isWhitespace then
    { sentiment_positive_probability := 0, score := 3 }
  else
    let p_pos := pPos s text
    let score : Nat :=
      if p_pos ≥ 9/10 then 15
      else if 7/10 ≤ p_pos ∧ p_pos < 9/10 then 12
      else if 5/10 ≤ p_pos ∧ p_pos < 7/10 then 9
      else if 3/10 ≤ p_pos ∧ p_pos < 5/10 then 6
      else 3
    { sentiment_positive_probability := round2 p_pos, score := score }

/-! ## The aggregator -/

/-- The all-zero report returned on empty/whitespace-only input. -/
def zeroReport : Report :=
  { overall_score := 0,
    content_and_structure :=
      { salutation_score := 0, keyword_must_have_score := 0,
        keyword_good_to_have_score := 0, flow_score := 0, total := 0 },
    speech_rate := { wpm := 0, score := 0 },
    language_and_grammar :=
      { grammar_score := 0, vocabulary_richness_score := 0, total := 0 },
    clarity :=
      { filler_word_count := 0, filler_word_rate_percent := 0, score := 0 },
    engagement := { sentiment_positive_probability := 0, score := 0 } }

def calculate_final_score (s : IntroductionScorer) (text : List Char) :
    Report :=
  if text.all Char.isWhitespace then zeroReport
  else
    let content := evaluate_content_structure text
    let speech := evaluate_speech_rate text
    let language := evaluate_language_grammar s text
    let clarity := evaluate_clarity text
    let engagement := evaluate_engagement s text
    let overall := content.total + speech.score + language.total +
      clarity.score + engagement.score
    { overall_score := max 0 (min 100 overall),
      content_and_structure := content,
      speech_rate := speech,
      language_and_grammar := language,
      clarity := clarity,
      engagement := engagement }

/-! ## Helper lemmas -/

theorem char_toNat_ofNat_valid (n : Nat) (h : n.isValidChar) :
    (Char.ofNat n).toNat = n := by
  unfold Char.ofNat
  rw [dif_pos h]
  rfl

theorem char_eq_iff_toNat (a b : Char) : a = b ↔ a.toNat = b.toNat :=
  ⟨fun h => by rw [h], fun h => Char.eq_of_val_eq (UInt32.ext h)⟩

theorem isWhitespace_iff (c : Char) :
    c.isWhitespace = true ↔
      (c.toNat = 32 ∨ c.toNat = 9 ∨ c.toNat = 13 ∨ c.toNat = 10) := by
  unfold Char.isWhitespace
  simp only [Bool.or_eq_true, decide_eq_true_eq]
  rw [char_eq_iff_toNat c ' ', char_eq_iff_toNat c '\t',
    char_eq_iff_toNat c '\r', char_eq_iff_toNat c '\n']
  simp only [show ' '.toNat = 32 from rfl, show '\t'.toNat = 9 from rfl,
    show '\r'.toNat = 13 from rfl, show '\n'.toNat = 10 from rfl]
  tauto

theorem isWhitespace_toLower (c : Char) :
    (Char.toLower c).isWhitespace = c.isWhitespace := by
  unfold Char.toLower
  show (if c.toNat ≥ 65 ∧ c.toNat ≤ 90
    then Char.ofNat (c.toNat + 32) else c).isWhitespace = c.isWhitespace
  split
  case isTrue h =>
    have hv : (c.toNat + 32).isValidChar := Or.inl (by omega)
    have h1 : (Char.ofNat (c.toNat + 32)).toNat = c.toNat + 32 :=
      char_toNat_ofNat_valid _ hv
    have e1 : (Char.ofNat (c.toNat + 32)).isWhitespace = false := by
      rw [Bool.eq_false_iff]
      simp only [ne_eq, isWhitespace_iff, h1]
      omega
    have e2 : c.isWhitespace = false := by
      rw [Bool.eq_false_iff]
      simp only [ne_eq, isWhitespace_iff]
      omega
    rw [e1, e2]
  case isFalse => rfl

theorem all_ws_pyLower (t : List Char) :
    (pyLower t).all Char.isWhitespace = t.all Char.isWhitespace := by
  unfold pyLower
  rw [List.all_map]
  congr 1
  funext c
  exact isWhitespace_toLower c

theorem splitAux_ne_nil (acc t : List Char) (h : acc.isEmpty = false) :
    splitAux acc t ≠ [] := by
  induction t generalizing acc with
  | nil => simp [splitAux, h]
  | cons c ts ih =>
    by_cases hc : c.isWhitespace
    · simp [splitAux, hc, h]
    · simpa [splitAux, hc] using ih (c :: acc) rfl

theorem splitAux_ne_nil_of_not_all_ws (t : List Char) :
    t.all Char.isWhitespace = false → ∀ acc, splitAux acc t ≠ [] := by
  induction t with
  | nil => intro h; simp at h
  | cons c ts ih =>
    intro h acc
    by_cases hc : c.isWhitespace
    · have h' : ts.all Char.isWhitespace = false := by simpa [hc] using h
      by_cases ha : acc.isEmpty = true
      · simpa [splitAux, hc, ha] using ih h' []
      · simp only [Bool.not_eq_true] at ha
        simp [splitAux, hc, ha]
    · simpa [splitAux, hc] using splitAux_ne_nil (c :: acc) ts rfl

theorem pyWords_ne_nil (t : List Char)
    (h : t.all Char.isWhitespace = false) : pyWords t ≠ [] :=
  splitAux_ne_nil_of_not_all_ws t h []

theorem ratioBand_bounds (r : ℚ) : 2 ≤ ratioBand r ∧ ratioBand r ≤ 10 := by
  unfold ratioBand
  split_ifs <;> omega

theorem speech_score_bounds (t : List Char) :
    2 ≤ (evaluate_speech_rate t).score ∧ (evaluate_speech_rate t).score ≤ 10 := by
  unfold evaluate_speech_rate
  dsimp only
  split_ifs <;> omega

theorem clarity_score_bounds (t : List Char) :
    3 ≤ (evaluate_clarity t).score ∧ (evaluate_clarity t).score ≤ 15 := by
  unfold evaluate_clarity
  dsimp only
  split_ifs <;> dsimp only <;> omega

theorem engagement_score_bounds (s : IntroductionScorer) (t : List Char) :
    3 ≤ (evaluate_engagement s t).score ∧
      (evaluate_engagement s t).score ≤ 15 := by
  unfold evaluate_engagement
  dsimp only
  split_ifs <;> dsimp only <;> omega

theorem language_total_facts (s : IntroductionScorer) (t : List Char) :
    (evaluate_language_grammar s t).total ≤ 20 ∧
    (evaluate_language_grammar s t).total =
      (evaluate_language_grammar s t).grammar_score +
      (evaluate_language_grammar s t).vocabulary_richness_score ∧
    ((pyWords t).length ≠ 0 → 4 ≤ (evaluate_language_grammar s t).total) := by
  unfold evaluate_language_grammar
  dsimp only
  split_ifs with h
  · exact ⟨by dsimp only; omega, rfl, fun hc => absurd h hc⟩
  · have h1 := ratioBand_bounds (gRatioVal s t)
    have h2 := ratioBand_bounds (ttrVal t)
    exact ⟨by dsimp only; omega, rfl, fun _ => by dsimp only; omega⟩

theorem content_facts (t : List Char) :
    (evaluate_content_structure t).total ≤ 40 ∧
    (evaluate_content_structure t).total =
      (evaluate_content_structure t).salutation_score +
      (evaluate_content_structure t).keyword_must_have_score +
      (evaluate_content_structure t).keyword_good_to_have_score +
      (evaluate_content_structure t).flow_score := by
  unfold evaluate_content_structure
  dsimp only
  constructor
  · split_ifs <;> omega
  · rfl

/-! ## Claim theorems -/

/-- C1: for every transcript (and any collaborators), the report's
`overall_score` equals the sum of the five category outputs found in the
report (content total + speech score + language total + clarity score +
engagement score) clamped to [0,100]; in particular it is at most 100
(and, being a natural number, at least 0). -/
theorem c1_overall_clamped_sum (s : IntroductionScorer) (t : List Char) :
    (calculate_final_score s t).overall_score =
      max 0 (min 100
        ((calculate_final_score s t).content_and_structure.total +
         (calculate_final_score s t).speech_rate.score +
         (calculate_final_score s t).language_and_grammar.total +
         (calculate_final_score s t).clarity.score +
         (calculate_final_score s t).engagement.score)) ∧
    (calculate_final_score s t).overall_score ≤ 100 := by
  unfold calculate_final_score
  split_ifs with h
  · exact ⟨by decide, by decide⟩
  · dsimp only
    exact ⟨rfl, by omega⟩

/-- C2: for every empty or whitespace-only transcript and any choice of
collaborators, the engine returns the literal all-zero report (so no
category evaluator's output, in particular neither Clarity's internal 15
nor Engagement's floor of 3, reaches the report: every sub-score is 0). -/
theorem c2_blank_input_zero_report (s : IntroductionScorer) (t : List Char)
    (h : t.all Char.isWhitespace = true) :
    calculate_final_score s t = zeroReport ∧
    (calculate_final_score s t).clarity.score = 0 ∧
    (calculate_final_score s t).engagement.score = 0 := by
  have hz : calculate_final_score s t = zeroReport := by
    unfold calculate_final_score
    rw [if_pos h]
  exact ⟨hz, by rw [hz]; rfl, by rw [hz]; rfl⟩

theorem c2_blank_input_zero_report_witness :
    (("  ".data).all Char.isWhitespace = true) ∧
    calculate_final_score ⟨none, fun _ => 0⟩ "  ".data = zeroReport :=
  ⟨by decide,
    (c2_blank_input_zero_report ⟨none, fun _ => 0⟩ "  ".data (by decide)).1⟩

/-- C5: with the Grammar Checker collaborator absent (`none`), for every
transcript with positive word count the effective errors-per-100-words is
0, the grammar ratio is 1, and the grammar score is 10 (the evaluation is
total, so no error is ever raised). -/
theorem c5_absent_grammar_checker (v : List Char → ℚ) (t : List Char)
    (h : 0 < (pyWords t).length) :
    errorsPer100 ⟨none, v⟩ t = 0 ∧ gRatioVal ⟨none, v⟩ t = 1 ∧
    (evaluate_language_grammar ⟨none, v⟩ t).grammar_score = 10 := by
  have h1 : errorsPer100 ⟨none, v⟩ t = 0 := by
    unfold errorsPer100 effErrors
    dsimp only
    norm_num
  have h2 : gRatioVal ⟨none, v⟩ t = 1 := by
    unfold gRatioVal
    rw [h1]
    norm_num
  refine ⟨h1, h2, ?_⟩
  unfold evaluate_language_grammar
  rw [if_neg (by omega)]
  dsimp only
  rw [h2]
  decide

theorem c5_absent_grammar_checker_witness :
    0 < (pyWords "hello world".data).length ∧
    (evaluate_language_grammar ⟨none, fun _ => 0⟩
      "hello world".data).grammar_score = 10 :=
  ⟨by decide,
    (c5_absent_grammar_checker (fun _ => 0) "hello world".data (by decide)).2.2⟩

/-- C7: for every transcript and any collaborators, each category result
is within its documented bound (content total ≤ 40, speech score ≤ 10,
language total ≤ 20, clarity score ≤ 15, engagement score ≤ 15; all are
naturals, hence ≥ 0), and the content and language totals equal the sums
of their sub-scores. -/
theorem c7_category_result_bounds (s : IntroductionScorer) (t : List Char) :
    (evaluate_content_structure t).total ≤ 40 ∧
    (evaluate_content_structure t).total =
      (evaluate_content_structure t).salutation_score +
      (evaluate_content_structure t).keyword_must_have_score +
      (evaluate_content_structure t).keyword_good_to_have_score +
      (evaluate_content_structure t).flow_score ∧
    (evaluate_speech_rate t).score ≤ 10 ∧
    (evaluate_language_grammar s t).total ≤ 20 ∧
    (evaluate_language_grammar s t).total =
      (evaluate_language_grammar s t).grammar_score +
      (evaluate_language_grammar s t).vocabulary_richness_score ∧
    (evaluate_clarity t).score ≤ 15 ∧
    (evaluate_engagement s t).score ≤ 15 :=
  ⟨(content_facts t).1, (content_facts t).2, (speech_score_bounds t).2,
    (language_total_facts s t).1, (language_total_facts s t).2.1,
    (clarity_score_bounds t).2, (engagement_score_bounds s t).2⟩

/-- C8: scoring is deterministic given the collaborator outputs: two
engine states whose effective grammar-error count and sentiment polarity
agree on a transcript produce identical reports. -/
theorem c8_deterministic_given_collaborators (s1 s2 : IntroductionScorer)
    (t : List Char) (hg : effErrors s1 t = effErrors s2 t)
    (hv : s1.vader_analyzer t = s2.vader_analyzer t) :
    calculate_final_score s1 t = calculate_final_score s2 t := by
  have hl : evaluate_language_grammar s1 t = evaluate_language_grammar s2 t := by
    unfold evaluate_language_grammar gRatioVal errorsPer100
    rw [hg]
  have he : evaluate_engagement s1 t = evaluate_engagement s2 t := by
    unfold evaluate_engagement pPos
    rw [hv]
  unfold calculate_final_score
  rw [hl, he]

theorem c8_deterministic_witness :
    effErrors ⟨none, fun _ => 0⟩ "hi there".data =
      effErrors ⟨some (fun _ => 0), fun _ => 0⟩ "hi there".data ∧
    (⟨none, fun _ => 0⟩ : IntroductionScorer).vader_analyzer "hi there".data =
      (⟨some (fun _ => 0), fun _ => 0⟩ :
        IntroductionScorer).vader_analyzer "hi there".data ∧
    calculate_final_score ⟨none, fun _ => 0⟩ "hi there".data =
      calculate_final_score ⟨some (fun _ => 0), fun _ => 0⟩ "hi there".data :=
  ⟨rfl, rfl, c8_deterministic_given_collaborators _ _ _ rfl rfl⟩

/-- C9: every transcript containing at least one non-whitespace character
scores at least 12 overall: speech ≥ 2, language total ≥ 4 (positive word
count), clarity ≥ 3 and engagement ≥ 3, whatever the collaborators say. -/
theorem c9_nonempty_min_overall (s : IntroductionScorer) (t : List Char)
    (h : t.all Char.isWhitespace = false) :
    12 ≤ (calculate_final_score s t).overall_score := by
  have hwc : (pyWords t).length ≠ 0 := by
    have := pyWords_ne_nil t h
    simpa [List.length_eq_zero] using this
  unfold calculate_final_score
  rw [if_neg (by simp [h])]
  dsimp only
  have h2 := (speech_score_bounds t).1
  have h4 := (language_total_facts s t).2.2 hwc
  have h3 := (clarity_score_bounds t).1
  have h5 := (engagement_score_bounds s t).1
  omega

theorem c9_nonempty_min_overall_witness :
    ("a".data.all Char.isWhitespace = false) ∧
    12 ≤ (calculate_final_score ⟨none, fun _ => 0⟩ "a".data).overall_score :=
  ⟨by decide, c9_nonempty_min_overall ⟨none, fun _ => 0⟩ "a".data (by decide)⟩

/-- C10: salutation detection is substring containment on the lower-cased
transcript: whenever "hi" occurs as a substring (possibly inside another
word) and no strong or good salutation phrase occurs, the salutation
score is 2. -/
theorem c10_substring_salutation (t : List Char)
    (hhi : pyContains (pyLower t) "hi".data = true)
    (hstrong : strong_salutations.any
      (fun x => pyContains (pyLower t) x) = false)
    (hgood : good_salutations.any
      (fun x => pyContains (pyLower t) x) = false) :
    (evaluate_content_structure t).salutation_score = 2 := by
  have hbasic : basic_salutations.any
      (fun x => pyContains (pyLower t) x) = true := by
    unfold basic_salutations
    simp only [List.map_cons, List.map_nil, List.any_cons, List.any_nil,
      Bool.or_eq_true]
    exact Or.inl hhi
  unfold evaluate_content_structure
  dsimp only
  rw [hstrong, hgood, hbasic]
  rfl

theorem c10_substring_salutation_witness :
    pyContains (pyLower "this is something".data) "hi".data = true ∧
    strong_salutations.any
      (fun x => pyContains (pyLower "this is something".data) x) = false ∧
    good_salutations.any
      (fun x => pyContains (pyLower "this is something".data) x) = false ∧
    (evaluate_content_structure "this is something".data).salutation_score = 2 :=
  ⟨by decide, by decide, by decide,
    c10_substring_salutation "this is something".data
      (by decide) (by decide) (by decide)⟩

/-- C4: for every transcript with positive word count whose (unrounded)
filler rate percent lies strictly inside a gap between clarity bands —
in (3,4), (6,7) or (9,10) — the clarity score is 3 (the `else` branch),
not the adjacent band's score. -/
theorem c4_clarity_gap_else_branch (t : List Char)
    (hwc : (pyWords (pyLower t)).length ≠ 0)
    (hr : (3 < clarityRate t ∧ clarityRate t < 4) ∨
          (6 < clarityRate t ∧ clarityRate t < 7) ∨
          (9 < clarityRate t ∧ clarityRate t < 10)) :
    (evaluate_clarity t).score = 3 := by
  unfold evaluate_clarity
  rw [if_neg hwc]
  dsimp only
  rcases hr with ⟨ha, hb⟩ | ⟨ha, hb⟩ | ⟨ha, hb⟩ <;>
    rw [if_neg (by intro h3; linarith),
      if_neg (by rintro ⟨hA, hB⟩; linarith),
      if_neg (by rintro ⟨hA, hB⟩; linarith),
      if_neg (by rintro ⟨hA, hB⟩; linarith)]

theorem c4_clarity_gap_else_branch_witness :
    (pyWords (pyLower ("um a a a a a a a a a a a a a a " ++
      "a a a a a a a a a a a a a a").data)).length ≠ 0 ∧
    (3 < clarityRate ("um a a a a a a a a a a a a a a " ++
      "a a a a a a a a a a a a a a").data ∧
     clarityRate ("um a a a a a a a a a a a a a a " ++
      "a a a a a a a a a a a a a a").data < 4) ∧
    (evaluate_clarity ("um a a a a a a a a a a a a a a " ++
      "a a a a a a a a a a a a a a").data).score = 3 :=
  ⟨by decide, ⟨by decide, by decide⟩,
    c4_clarity_gap_else_branch _ (by decide) (Or.inl ⟨by decide, by decide⟩)⟩

/-- C3 counterexample: at a 96-word transcript the computed WPM is
1440/13 ≈ 110.77, which lies in none of the five claimed speech-rate
bands (not > 161, not in [141,160], not in [111,140], not in [81,110],
and not < 81), yet the evaluator returns score 2 via its `else` branch:
the claimed bands do not jointly cover every reachable WPM value. -/
theorem c3_counterexample :
    ¬ (speechWpm (List.replicate 96 ['a', ' ']).flatten > 161) ∧
    ¬ (141 ≤ speechWpm (List.replicate 96 ['a', ' ']).flatten ∧
       speechWpm (List.replicate 96 ['a', ' ']).flatten ≤ 160) ∧
    ¬ (111 ≤ speechWpm (List.replicate 96 ['a', ' ']).flatten ∧
       speechWpm (List.replicate 96 ['a', ' ']).flatten ≤ 140) ∧
    ¬ (81 ≤ speechWpm (List.replicate 96 ['a', ' ']).flatten ∧
       speechWpm (List.replicate 96 ['a', ' ']).flatten ≤ 110) ∧
    ¬ (speechWpm (List.replicate 96 ['a', ' ']).flatten < 81) ∧
    (evaluate_speech_rate (List.replicate 96 ['a', ' ']).flatten).score = 2 := by
  decide

/-- C3 amended: the reported speech-rate score is characterized by the
implemented bands: 10 exactly on WPM in [111,140], 6 exactly on
[141,160] ∪ [81,110], and 2 everywhere else — that is, not only for
WPM > 161 and WPM < 81 but also on the uncovered gaps (80,81), (110,111),
(140,141) and (160,161], which real word counts do reach. -/
theorem c3_amended_band_characterization (t : List Char) :
    ((evaluate_speech_rate t).score = 10 ↔
      (111 ≤ speechWpm t ∧ speechWpm t ≤ 140)) ∧
    ((evaluate_speech_rate t).score = 6 ↔
      ((141 ≤ speechWpm t ∧ speechWpm t ≤ 160) ∨
       (81 ≤ speechWpm t ∧ speechWpm t ≤ 110))) ∧
    ((evaluate_speech_rate t).score = 2 ↔
      (¬ (111 ≤ speechWpm t ∧ speechWpm t ≤ 140) ∧
       ¬ (141 ≤ speechWpm t ∧ speechWpm t ≤ 160) ∧
       ¬ (81 ≤ speechWpm t ∧ speechWpm t ≤ 110))) := by
  unfold evaluate_speech_rate
  dsimp only
  split_ifs with h1 h2 h3 h4
  · refine ⟨⟨fun h => absurd h (by decide), fun hA => absurd hA ?_⟩,
      ⟨fun h => absurd h (by decide), fun hB => absurd hB ?_⟩,
      ⟨fun _ => ⟨?_, ?_, ?_⟩, fun _ => rfl⟩⟩
    · rintro ⟨x, y⟩; linarith
    · rintro (⟨x, y⟩ | ⟨x, y⟩) <;> linarith
    · rintro ⟨x, y⟩; linarith
    · rintro ⟨x, y⟩; linarith
    · rintro ⟨x, y⟩; linarith
  · obtain ⟨h2a, h2b⟩ := h2
    refine ⟨⟨fun h => absurd h (by decide), fun hA => absurd hA ?_⟩,
      ⟨fun _ => Or.inl ⟨h2a, h2b⟩, fun _ => rfl⟩,
      ⟨fun h => absurd h (by decide), fun hC => absurd ⟨h2a, h2b⟩ hC.2.1⟩⟩
    · rintro ⟨x, y⟩; linarith
  · refine ⟨⟨fun _ => h3, fun _ => rfl⟩,
      ⟨fun h => absurd h (by decide), fun hB => ?_⟩,
      ⟨fun h => absurd h (by decide), fun hC => absurd h3 hC.1⟩⟩
    · rcases hB with hB | hB
      · exact absurd hB h2
      · exfalso
        rcases h3 with ⟨x, y⟩
        rcases hB with ⟨u, v⟩
        linarith
  · refine ⟨⟨fun h => absurd h (by decide), fun hA => ?_⟩,
      ⟨fun _ => Or.inr h4, fun _ => rfl⟩,
      ⟨fun h => absurd h (by decide), fun hC => absurd h4 hC.2.2⟩⟩
    · exfalso
      rcases hA with ⟨x, y⟩
      rcases h4 with ⟨u, v⟩
      linarith
  · exact ⟨⟨fun h => absurd h (by decide), fun hA => absurd hA h3⟩,
      ⟨fun h => absurd h (by decide),
        fun hB => hB.elim (fun hb => absurd hb h2) (fun hb => absurd hb h4)⟩,
      ⟨fun _ => ⟨h3, h2, h4⟩, fun _ => rfl⟩⟩

/-- C6 counterexample: on the transcript "i am here hello my name is bob"
the code's Name index is 19 (the position of "name is", the first pattern
in list order that occurs) although the minimum occurrence position over
the Name patterns is 0 ("i am"); consequently the code's flow score is 5
while the flow score computed with minimum-position indices (as the claim
reads them) would be 3. -/
theorem c6_counterexample :
    firstFoundIdx (pyLower "i am here hello my name is bob".data)
      name_patterns = 19 ∧
    minOccIdx (pyLower "i am here hello my name is bob".data)
      name_patterns = 0 ∧
    (evaluate_content_structure
      "i am here hello my name is bob".data).flow_score = 5 ∧
    flowScoreSpec "i am here hello my name is bob".data = 3 := by
  decide

/-- C6 amended: the index the flow heuristic uses for a category (and for
the salutation and closing) is the `find` position of the first pattern
in the category's fixed list order that occurs at all: `firstFoundIdx`
returns −1 exactly when no pattern occurs, and otherwise the occurrence
index of the earliest-listed (not earliest-positioned) matching pattern,
every pattern listed before it being absent. -/
theorem c6_amended_first_listed_index (hay : List Char)
    (pats : List (List Char)) :
    (firstFoundIdx hay pats = -1 ∧ ∀ p ∈ pats, pyFind hay p = -1) ∨
    (∃ pre p suf, pats = pre ++ p :: suf ∧
      (∀ q ∈ pre, pyFind hay q = -1) ∧ pyFind hay p ≠ -1 ∧
      firstFoundIdx hay pats = pyFind hay p) := by
  induction pats with
  | nil => exact Or.inl ⟨rfl, by simp⟩
  | cons p ps ih =>
    by_cases h : pyFind hay p = -1
    · rcases ih with ⟨h1, h2⟩ | ⟨pre, q, suf, he, hpre, hq, hval⟩
      · refine Or.inl ⟨by simp [firstFoundIdx, h, h1], ?_⟩
        intro x hx
        rcases List.mem_cons.mp hx with rfl | hx
        · exact h
        · exact h2 x hx
      · refine Or.inr ⟨p :: pre, q, suf, by simp [he], ?_, hq, ?_⟩
        · intro x hx
          rcases List.mem_cons.mp hx with rfl | hx
          · exact h
          · exact hpre x hx
        · simpa [firstFoundIdx, h] using hval
    · exact Or.inr ⟨[], p, ps, rfl, by simp, h,
        by simp [firstFoundIdx, h]⟩
